import Mathlib

/-!
# Shallow embedding of the PenPals backend (MirrorMirrorEngine)

This file embeds the route handlers of the PenPals Flask backend that the
verified claims are about:

* `register`                 (src/app/main.py)
* `send_friend_request`      (src/app/blueprint/friends_bp.py)
* `like_post`, `unlike_post` (src/app/blueprint/posts_bp.py)
* `create_webex_meeting`, `accept_invitation`, `decline_invitation`,
  `cancel_invitation`        (src/app/blueprint/webex_bp.py)

The relational store is modelled as lists of rows; each handler is a pure
function from a database state (plus the request inputs and the externally
supplied values: clock, gateway-call results, fresh autoincrement ids held in
the state) to a response and a successor state.  Statuses are strings, as in
the SQLAlchemy columns.  Fields of the `Account` and `Profile` models (whose
module files are not part of the snapshot) are reconstructed from their uses
in the handlers; only the fields the handlers read are carried.
-/

namespace PenPals

/-- `accounts` table.  Fields as read by the handlers: identity, credentials,
organization and the WebEx OAuth token triple (all three nullable). -/
structure Account where
  id : Nat
  email : String
  password_hash : String
  organization : Option String := none
  webex_access_token : Option String := none
  webex_refresh_token : Option String := none
  webex_token_expires_at : Option Int := none
  deriving Repr, DecidableEq

/-- `profiles` table (a classroom), owned by one account. -/
structure Profile where
  id : Nat
  account_id : Nat
  name : String := ""
  deriving Repr, DecidableEq

/-- Modelled from the spec: `model/relation.py` is not in the snapshot (only
its importers and tests are).  Per the spec a Relation is "a confirmed,
directional friendship edge" carrying a status, created in pairs when a
request is mutually accepted; the repository's test fixtures create relations
with status `accepted` by default, so the model's default column value is
taken to be `"accepted"`. -/
def relationDefaultStatus : String := "accepted"

/-- `relations` table: a directional friendship edge. -/
structure Relation where
  from_profile_id : Nat
  to_profile_id : Nat
  status : String := relationDefaultStatus
  deriving Repr, DecidableEq

/-- `friend_requests` table. -/
structure FriendRequest where
  id : Nat
  sender_profile_id : Nat
  receiver_profile_id : Nat
  status : String := "pending"
  deriving Repr, DecidableEq

/-- `notifications` table.  `message` is kept optional because the handlers
sometimes leave it unset. -/
structure Notification where
  account_id : Nat
  title : String
  message : Option String := none
  type : String := "info"
  related_id : Option String := none
  deriving Repr, DecidableEq

/-- `posts` table together with its `post_likes` association rows:
`liked_by` is the list of account ids holding a like row for this post. -/
structure Post where
  id : Nat
  profile_id : Nat
  content : String := ""
  liked_by : List Nat := []
  likes : Int := 0
  deriving Repr, DecidableEq

/-- `meeting_invitations` table. -/
structure MeetingInvitation where
  id : Nat
  sender_profile_id : Nat
  receiver_profile_id : Nat
  title : String
  start_time : Int
  end_time : Int
  status : String := "pending"
  meeting_id : Option Nat := none
  deriving Repr, DecidableEq

/-- `meetings` table together with its `meeting_participants` association
rows (`participants` is the list of participant profile ids). -/
structure Meeting where
  id : Nat
  webex_id : Option String := none
  title : String
  start_time : Int
  end_time : Int
  web_link : Option String := none
  password : Option String := none
  creator_id : Nat
  participants : List Nat := []
  deriving Repr, DecidableEq

/-- The whole relational store, plus the autoincrement counters the handlers
draw fresh primary keys from. -/
structure DB where
  accounts : List Account := []
  profiles : List Profile := []
  relations : List Relation := []
  friend_requests : List FriendRequest := []
  notifications : List Notification := []
  posts : List Post := []
  invitations : List MeetingInvitation := []
  meetings : List Meeting := []
  next_account_id : Nat := 1
  next_request_id : Nat := 1
  next_invitation_id : Nat := 1
  next_meeting_id : Nat := 1
  deriving Repr, DecidableEq

/-- `Account.query.get(account_id)`. -/
def DB.getAccount (db : DB) (aid : Nat) : Option Account :=
  db.accounts.find? (fun a => a.id == aid)

/-- `account.profiles.first()`: the first stored profile owned by the
account. -/
def DB.firstProfile (db : DB) (aid : Nat) : Option Profile :=
  db.profiles.find? (fun p => p.account_id == aid)

/-- `Profile.query.get(profile_id)`. -/
def DB.getProfile (db : DB) (pid : Nat) : Option Profile :=
  db.profiles.find? (fun p => p.id == pid)

/-! ## Registration (src/app/main.py, `register`) -/

/-- JSON body of `POST /api/auth/register`; absent keys are `none`. -/
structure RegisterData where
  email : Option String := none
  password : Option String := none
  organization : Option String := none
  deriving Repr, DecidableEq

/-- Python truthiness of an optional string: `None` and `""` are falsy. -/
def truthyStr : Option String → Bool
  | none => false
  | some s => s ≠ ""

/-- `any(c in capital_letters for c in password)` with
`capital_letters = [chr(65) .. chr(90)]`. -/
def has_upper (p : String) : Bool := p.data.any (fun c => 'A' ≤ c && c ≤ 'Z')

/-- `any(c in lowercase_letters for c in password)`. -/
def has_lower (p : String) : Bool := p.data.any (fun c => 'a' ≤ c && c ≤ 'z')

/-- `any(c in digits for c in password)`. -/
def has_digit (p : String) : Bool := p.data.any (fun c => '0' ≤ c && c ≤ '9')

/-- `any(c not in capital_letters and c not in lowercase_letters and
c not in digits for c in password)`. -/
def has_special (p : String) : Bool :=
  p.data.any (fun c =>
    !('A' ≤ c && c ≤ 'Z') && !('a' ≤ c && c ≤ 'z') && !('0' ≤ c && c ≤ '9'))

/-- The password-policy condition of `register` (main.py line 105). -/
def passwordOk (p : String) : Bool :=
  decide (p.length ≥ 8) && has_upper p && has_lower p && has_digit p &&
    has_special p

/-- Response of `register`: HTTP status, message, created account id. -/
structure RegResp where
  code : Nat
  msg : String
  account_id : Option Nat := none
  deriving Repr, DecidableEq

/-- `POST /api/auth/register`.  `hash` stands for werkzeug's
`generate_password_hash`. -/
def register (db : DB) (hash : String → String) (data : Option RegisterData) :
    RegResp × DB :=
  match data with
  | none => ({ code := 400, msg := "Invalid request format" }, db)
  | some d =>
    if !(truthyStr d.email && truthyStr d.password) then
      ({ code := 400, msg := "Missing required fields" }, db)
    else
      let email := d.email.getD ""
      let password := d.password.getD ""
      if !passwordOk password then
        ({ code := 400,
           msg := "Password must be at least 8 characters and include one uppercase, one lowercase, one digit, and one special character." },
         db)
      else if db.accounts.any (fun a => a.email == email) then
        ({ code := 409, msg := "Account already exists" }, db)
      else
        let account : Account :=
          { id := db.next_account_id, email := email,
            password_hash := hash password, organization := d.organization }
        ({ code := 201, msg := "Account created successfully",
           account_id := some account.id },
         { db with accounts := db.accounts ++ [account],
                   next_account_id := db.next_account_id + 1 })

/-! ## Friend requests (src/app/blueprint/friends_bp.py, `send_friend_request`) -/

/-- JSON body of `POST /api/friends/request`. -/
structure FriendBody where
  classroomId : Option Nat := none
  deriving Repr, DecidableEq

/-- Response of `send_friend_request`: HTTP status, message and the
`status` field of the success payloads. -/
structure FriendResp where
  code : Nat
  msg : String
  status : Option String := none
  deriving Repr, DecidableEq

/-- Does a relation row connect `a` and `b` (either direction)?  This is the
filter of friends_bp.py lines 43-46. -/
def connects (a b : Nat) (r : Relation) : Bool :=
  (r.from_profile_id == a && r.to_profile_id == b) ||
    (r.from_profile_id == b && r.to_profile_id == a)

/-- A pending friend-request row from `s` to `t` (the `filter_by` of
friends_bp.py lines 52-56 and 62-66). -/
def pendingFrom (s t : Nat) (fr : FriendRequest) : Bool :=
  fr.sender_profile_id == s && fr.receiver_profile_id == t &&
    fr.status == "pending"

/-- `POST /api/friends/request`. -/
def send_friend_request (db : DB) (current_user_id : Nat)
    (body : Option FriendBody) : FriendResp × DB :=
  match db.getAccount current_user_id with
  | none => ({ code := 404, msg := "User not found" }, db)
  | some account =>
    match db.firstProfile account.id with
    | none => ({ code := 404, msg := "Profile not found" }, db)
    | some sender_profile =>
      match body with
      | none => ({ code := 400, msg := "Request body is required" }, db)
      | some data =>
        -- `if not target_classroom_id`: absent and the falsy id 0 both fail
        match data.classroomId with
        | none => ({ code := 400, msg := "Target classroom ID is required" }, db)
        | some tid =>
          if tid == 0 then
            ({ code := 400, msg := "Target classroom ID is required" }, db)
          else
            match db.getProfile tid with
            | none => ({ code := 404, msg := "Target classroom not found" }, db)
            | some target_profile =>
              if sender_profile.id == target_profile.id then
                ({ code := 400, msg := "Cannot add yourself as a friend" }, db)
              else if db.relations.any
                  (connects sender_profile.id target_profile.id) then
                ({ code := 400, msg := "Already friends" }, db)
              else if db.friend_requests.any
                  (pendingFrom sender_profile.id target_profile.id) then
                ({ code := 400, msg := "Friend request already sent" }, db)
              else
                match db.friend_requests.find?
                    (pendingFrom target_profile.id sender_profile.id) with
                | some reverse_request =>
                  -- auto-accept: both sides want to be friends
                  let rev' := { reverse_request with status := "accepted" }
                  let rel1 : Relation :=
                    { from_profile_id := target_profile.id,
                      to_profile_id := sender_profile.id }
                  let rel2 : Relation :=
                    { from_profile_id := sender_profile.id,
                      to_profile_id := target_profile.id }
                  let notif : Notification :=
                    { account_id := target_profile.account_id,
                      title := "Friend Request Accepted",
                      message := some (sender_profile.name ++
                        " accepted your friend request!"),
                      type := "success",
                      related_id := some (toString sender_profile.id) }
                  ({ code := 200, msg := "Friend request accepted (mutual)",
                     status := some "accepted" },
                   { db with
                       friend_requests := db.friend_requests.map
                         (fun fr => if fr.id == reverse_request.id then rev'
                                    else fr),
                       relations := db.relations ++ [rel1, rel2],
                       notifications := db.notifications ++ [notif] })
                | none =>
                  let new_request : FriendRequest :=
                    { id := db.next_request_id,
                      sender_profile_id := sender_profile.id,
                      receiver_profile_id := target_profile.id }
                  let notif : Notification :=
                    { account_id := target_profile.account_id,
                      title := "New Friend Request",
                      type := "friend_request_received",
                      related_id := some (toString sender_profile.id) }
                  ({ code := 201, msg := "Friend request sent",
                     status := some "pending" },
                   { db with
                       friend_requests := db.friend_requests ++ [new_request],
                       notifications := db.notifications ++ [notif],
                       next_request_id := db.next_request_id + 1 })

/-! ## Post likes (src/app/blueprint/posts_bp.py, `like_post`/`unlike_post`) -/

/-- Response of the like/unlike handlers: HTTP status, message and the
`likes` field of the payload. -/
structure LikeResp where
  code : Nat
  msg : String
  likes : Option Int := none
  deriving Repr, DecidableEq

/-- `POST /api/posts/<post_id>/like`. -/
def like_post (db : DB) (current_user_id : Nat) (post_id : Nat) :
    LikeResp × DB :=
  match db.getAccount current_user_id with
  | none => ({ code := 404, msg := "User not found" }, db)
  | some account =>
    match db.posts.find? (fun p => p.id == post_id) with
    | none => ({ code := 404, msg := "Post not found" }, db)
    | some post =>
      if account.id ∈ post.liked_by then
        ({ code := 200, msg := "Already liked", likes := some post.likes }, db)
      else
        let post' := { post with liked_by := post.liked_by ++ [account.id],
                                 likes := post.likes + 1 }
        let posts' := db.posts.map (fun p => if p.id == post.id then post' else p)
        ({ code := 200, msg := "Post liked", likes := some post'.likes },
         { db with posts := posts' })

/-- `POST /api/posts/<post_id>/unlike`. -/
def unlike_post (db : DB) (current_user_id : Nat) (post_id : Nat) :
    LikeResp × DB :=
  match db.getAccount current_user_id with
  | none => ({ code := 404, msg := "User not found" }, db)
  | some account =>
    match db.posts.find? (fun p => p.id == post_id) with
    | none => ({ code := 404, msg := "Post not found" }, db)
    | some post =>
      if account.id ∉ post.liked_by then
        ({ code := 200, msg := "Not liked yet", likes := some post.likes }, db)
      else
        let post' := { post with liked_by := post.liked_by.erase account.id,
                                 likes := if post.likes > 0 then post.likes - 1
                                          else post.likes }
        let posts' := db.posts.map (fun p => if p.id == post.id then post' else p)
        ({ code := 200, msg := "Post unliked", likes := some post'.likes },
         { db with posts := posts' })

/-! ## Meeting invitations (src/app/blueprint/webex_bp.py) -/

/-- Result of a webex_bp handler.  `crash` marks the paths where the Python
code would dereference a `None` relationship target (an unhandled
`AttributeError`), which can only happen on a state with a dangling foreign
key. -/
inductive WebexResult where
  | resp (code : Nat) (msg : String)
  | crash
  deriving Repr, DecidableEq

/-- A JSON id value, which the client may send as a number or a string. -/
inductive JsonId where
  | num (n : Int)
  | str (s : String)
  deriving Repr, DecidableEq

/-- Python truthiness of an optional JSON id: absent, `0` and `""` are
falsy. -/
def truthyId : Option JsonId → Bool
  | none => false
  | some (.num n) => n ≠ 0
  | some (.str s) => s ≠ ""

/-- JSON body of `POST /api/webex/meeting`. -/
structure CreateMeetingBody where
  title : Option String := none
  start_time : Option String := none
  end_time : Option String := none
  classroom_id : Option JsonId := none
  deriving Repr, DecidableEq

/-- Strip a trailing `Z` before parsing (webex_bp.py lines 136-139). -/
def stripZ (s : String) : String :=
  if s.endsWith "Z" then s.dropRight 1 else s

/-- `POST /api/webex/meeting`.  `now` stands for `datetime.utcnow()` (in
seconds), `parseIso` for `datetime.fromisoformat` (`none` = `ValueError`). -/
def create_webex_meeting (db : DB) (now : Int) (parseIso : String → Option Int)
    (current_user_id : Nat) (body : CreateMeetingBody) : WebexResult × DB :=
  match db.getAccount current_user_id with
  | none => (.resp 404 "User not found", db)
  | some account =>
    match db.firstProfile account.id with
    | none => (.resp 400 "No profile found for account", db)
    | some creator_profile =>
      let title := body.title.getD "Classroom Meeting"
      if !truthyId body.classroom_id then
        (.resp 400 "classroom_id is required", db)
      else
        match body.classroom_id with
        | none => (.resp 400 "classroom_id is required", db)
        | some cid =>
          -- dummy-classroom guard, then int() conversion
          match (match cid with
                 | .str s => if s.startsWith "dummy_" then none
                             else (s.trim.toInt?).map (fun n => some n)
                 | .num n => some (some n) : Option (Option Int)) with
          | none =>
            match cid with
            | .str s =>
              if s.startsWith "dummy_" then
                (.resp 400 "Cannot invite dummy classrooms. Please use real classrooms from your network.", db)
              else (.resp 400 "Invalid classroom_id format", db)
            | .num _ => (.resp 400 "Invalid classroom_id format", db)
          | some none => (.resp 400 "Invalid classroom_id format", db)
          | some (some classroom_id) =>
            match db.profiles.find? (fun p => (p.id : Int) == classroom_id) with
            | none => (.resp 404 "Receiver classroom not found", db)
            | some receiver_profile =>
              if creator_profile.id == receiver_profile.id then
                (.resp 400 "You cannot invite your own classroom", db)
              else
                -- `if not start_time_str or not end_time_str`: default window
                match (if !truthyStr body.start_time ||
                          !truthyStr body.end_time then
                         some (now, now + 3600)
                       else
                         match parseIso (stripZ (body.start_time.getD "")),
                               parseIso (stripZ (body.end_time.getD "")) with
                         | some st, some et => some (st, et)
                         | _, _ => none) with
                | none => (.resp 400 "Invalid date format", db)
                | some (start_time, end_time) =>
                  let new_invitation : MeetingInvitation :=
                    { id := db.next_invitation_id,
                      sender_profile_id := creator_profile.id,
                      receiver_profile_id := receiver_profile.id,
                      title := title,
                      start_time := start_time,
                      end_time := end_time,
                      status := "pending" }
                  (.resp 201 "Meeting invitation sent successfully",
                   { db with
                       invitations := db.invitations ++ [new_invitation],
                       next_invitation_id := db.next_invitation_id + 1 })

/-- Payload returned by `webex_service.refresh_access_token`. -/
structure TokenData where
  access_token : Option String := none
  refresh_token : Option String := none
  expires_in : Option Int := none
  deriving Repr, DecidableEq

/-- Payload returned by `webex_service.create_meeting`. -/
structure WebexMeetingData where
  id : Option String := none
  title : Option String := none
  webLink : Option String := none
  password : Option String := none
  deriving Repr, DecidableEq

/-- The token-refresh block shared by the accept path (webex_bp.py lines
378-388): given the sender's account, the clock and the gateway's answer,
either the updated account (committed) or a failure. -/
def refreshedAccount (sa : Account) (now : Int) (td : TokenData) : Account :=
  { sa with
      webex_access_token := td.access_token,
      webex_refresh_token :=
        match td.refresh_token with
        | some r => some r
        | none => sa.webex_refresh_token,
      webex_token_expires_at :=
        -- `if expires_in:` — absent and 0 both skip the update
        match td.expires_in with
        | some e => if e ≠ 0 then some (now + e) else sa.webex_token_expires_at
        | none => sa.webex_token_expires_at }

/-- Replace the account row with id `aid` by `a'`. -/
def DB.setAccount (db : DB) (aid : Nat) (a' : Account) : DB :=
  { db with accounts := db.accounts.map (fun a => if a.id == aid then a' else a) }

/-- The refresh-if-expired block of the accept path (webex_bp.py lines
377-388): when the stored expiry is in the past the gateway refresh runs;
its failure aborts (`none`), its success commits the updated account.  When
the token is not expired nothing happens. -/
def refreshStage (db : DB) (sa : Account) (now : Int)
    (rr : Except String TokenData) : Option (DB × Account) :=
  let expired : Bool :=
    match sa.webex_token_expires_at with
    | some t => decide (t < now)
    | none => false
  if expired then
    match rr with
    | .error _ => none
    | .ok td =>
      let sa' := refreshedAccount sa now td
      some (db.setAccount sa.id sa', sa')
  else some (db, sa)

/-- `POST /api/webex/invitations/<invitation_id>/accept`.

`refresh_result` and `create_result` stand for the outcomes of the two
gateway calls `webex_service.refresh_access_token` and
`webex_service.create_meeting` (`Except.error` = the call raised).

One modelling note: the Python handler runs `db.session.add(new_meeting)`
and then assigns `invitation.meeting_id = new_meeting.id` *before* the
session is flushed, so the value it copies is `None`; the meeting row's
primary key is generated only at the commit.  The embedding therefore
stores `meeting_id := none` on the accepted invitation while the meeting
row itself receives the fresh id. -/
def accept_invitation (db : DB) (now : Int)
    (refresh_result : Except String TokenData)
    (create_result : Except String WebexMeetingData)
    (current_user_id : Nat) (invitation_id : Nat) : WebexResult × DB :=
  match db.getAccount current_user_id with
  | none => (.resp 404 "User not found", db)
  | some account =>
    match db.firstProfile account.id with
    | none => (.resp 400 "No profile found for account", db)
    | some receiver_profile =>
      match db.invitations.find? (fun i => i.id == invitation_id) with
      | none => (.resp 404 "Invitation not found", db)
      | some invitation =>
        if invitation.receiver_profile_id != receiver_profile.id then
          (.resp 403 "This invitation is not for you", db)
        else if invitation.status != "pending" then
          (.resp 400 ("Invitation is already " ++ invitation.status), db)
        else
          -- `invitation.sender.account`
          match db.getProfile invitation.sender_profile_id with
          | none => (.crash, db)
          | some sender_profile =>
            match db.getAccount sender_profile.account_id with
            | none => (.crash, db)
            | some sender_account =>
              if sender_account.webex_access_token.isNone then
                (.resp 403 "The meeting organizer's WebEx account is not connected", db)
              else
                match refreshStage db sender_account now refresh_result with
                | none =>
                  (.resp 403 "Failed to refresh organizer's WebEx session. Please try again later.", db)
                | some (db1, _) =>
                  match create_result with
                  | .error e =>
                    (.resp 500 ("Failed to create WebEx meeting: " ++ e), db1)
                  | .ok wm =>
                    let new_meeting : Meeting :=
                      { id := db1.next_meeting_id,
                        webex_id := wm.id,
                        title := wm.title.getD invitation.title,
                        start_time := invitation.start_time,
                        end_time := invitation.end_time,
                        web_link := wm.webLink,
                        password := wm.password,
                        creator_id := invitation.sender_profile_id,
                        participants := [receiver_profile.id] }
                    -- `new_meeting.id` is still None at the assignment
                    let invitation' :=
                      { invitation with status := "accepted",
                                        meeting_id := none }
                    let invs' := db1.invitations.map
                      (fun i => if i.id == invitation.id then invitation' else i)
                    (.resp 201 "Invitation accepted. Meeting created successfully!",
                     { db1 with
                         meetings := db1.meetings ++ [new_meeting],
                         invitations := invs',
                         next_meeting_id := db1.next_meeting_id + 1 })

/-- `POST /api/webex/invitations/<invitation_id>/decline`. -/
def decline_invitation (db : DB) (current_user_id : Nat)
    (invitation_id : Nat) : WebexResult × DB :=
  match db.getAccount current_user_id with
  | none => (.resp 404 "User not found", db)
  | some account =>
    match db.firstProfile account.id with
    | none => (.resp 400 "No profile found for account", db)
    | some receiver_profile =>
      match db.invitations.find? (fun i => i.id == invitation_id) with
      | none => (.resp 404 "Invitation not found", db)
      | some invitation =>
        if invitation.receiver_profile_id != receiver_profile.id then
          (.resp 403 "This invitation is not for you", db)
        else if invitation.status != "pending" then
          (.resp 400 ("Invitation is already " ++ invitation.status), db)
        else
          let invitation' := { invitation with status := "declined" }
          let invs' := db.invitations.map
            (fun i => if i.id == invitation.id then invitation' else i)
          (.resp 200 "Invitation declined successfully",
           { db with invitations := invs' })

/-- `POST /api/webex/invitations/<invitation_id>/cancel`. -/
def cancel_invitation (db : DB) (current_user_id : Nat)
    (invitation_id : Nat) : WebexResult × DB :=
  match db.getAccount current_user_id with
  | none => (.resp 404 "User not found", db)
  | some account =>
    match db.firstProfile account.id with
    | none => (.resp 400 "No profile found for account", db)
    | some sender_profile =>
      match db.invitations.find? (fun i => i.id == invitation_id) with
      | none => (.resp 404 "Invitation not found", db)
      | some invitation =>
        if invitation.sender_profile_id != sender_profile.id then
          (.resp 403 "You can only cancel invitations you sent", db)
        else if invitation.status != "pending" then
          (.resp 400 ("Cannot cancel " ++ invitation.status ++ " invitation"), db)
        else
          let invitation' := { invitation with status := "cancelled" }
          let invs' := db.invitations.map
            (fun i => if i.id == invitation.id then invitation' else i)
          (.resp 200 "Invitation cancelled successfully",
           { db with invitations := invs' })

/-! ## Concrete sample states used by the witness theorems -/

/-- Stand-in for werkzeug's password hasher in closed statements. -/
def idHash : String → String := fun s => s

/-- One registered account. -/
def dbReg : DB :=
  { accounts := [{ id := 1, email := "a@b.c", password_hash := "h" }],
    next_account_id := 2 }

/-- Two accounts; account 2 has liked post 3, account 1 has not. -/
def dbPosts : DB :=
  { accounts := [{ id := 1, email := "u@x", password_hash := "h" },
                 { id := 2, email := "v@x", password_hash := "h" }],
    posts := [{ id := 3, profile_id := 9, content := "Hello",
                liked_by := [2], likes := 1 }] }

/-- The single post stored in `dbPosts`. -/
def postDemo : Post :=
  { id := 3, profile_id := 9, content := "Hello", liked_by := [2], likes := 1 }

/-- Two accounts with one profile each; Bob's profile 20 has a pending
friend request towards Alice's profile 10. -/
def dbFriends : DB :=
  { accounts := [{ id := 1, email := "alice@x", password_hash := "h" },
                 { id := 2, email := "bob@x", password_hash := "h" }],
    profiles := [{ id := 10, account_id := 1, name := "Room 9" },
                 { id := 20, account_id := 2, name := "Room 4" }],
    friend_requests := [{ id := 4, sender_profile_id := 20,
                          receiver_profile_id := 10 }],
    next_request_id := 5 }

/-- Sender account 1 (profile 10, WebEx connected), receiver account 2
(profile 20); invitation 5 from 10 to 20 is already cancelled. -/
def dbInvTerminal : DB :=
  { accounts := [{ id := 1, email := "s@x", password_hash := "h",
                   webex_access_token := some "tok" },
                 { id := 2, email := "r@x", password_hash := "h" }],
    profiles := [{ id := 10, account_id := 1 }, { id := 20, account_id := 2 }],
    invitations := [{ id := 5, sender_profile_id := 10,
                      receiver_profile_id := 20, title := "T",
                      start_time := 0, end_time := 3600,
                      status := "cancelled" }] }

/-- Like `dbInvTerminal` but invitation 5 is pending and the sender's token
has an expiry in the past. -/
def dbInvPending : DB :=
  { accounts := [{ id := 1, email := "s@x", password_hash := "h",
                   webex_access_token := some "tok",
                   webex_refresh_token := some "ref",
                   webex_token_expires_at := some (-10) },
                 { id := 2, email := "r@x", password_hash := "h" }],
    profiles := [{ id := 10, account_id := 1 }, { id := 20, account_id := 2 }],
    invitations := [{ id := 5, sender_profile_id := 10,
                      receiver_profile_id := 20, title := "T",
                      start_time := 0, end_time := 3600 }],
    next_meeting_id := 7 }

/-- Like `dbInvPending` but the sender holds no WebEx token at all. -/
def dbInvNoToken : DB :=
  { dbInvPending with
      accounts := [{ id := 1, email := "s@x", password_hash := "h" },
                   { id := 2, email := "r@x", password_hash := "h" }] }

/-- Like `dbInvPending` but with a non-expiring sender token; invitation 5
is pending. -/
def dbAcceptOk : DB :=
  { accounts := [{ id := 1, email := "s@x", password_hash := "h",
                   webex_access_token := some "tok" },
                 { id := 2, email := "r@x", password_hash := "h" }],
    profiles := [{ id := 10, account_id := 1 }, { id := 20, account_id := 2 }],
    invitations := [{ id := 5, sender_profile_id := 10,
                      receiver_profile_id := 20, title := "T",
                      start_time := 0, end_time := 3600 }],
    next_meeting_id := 7 }

/-- A gateway `create_meeting` payload used in closed statements. -/
def wmDemo : WebexMeetingData :=
  { id := some "wx", webLink := some "https://wx/join", password := some "pw" }

/-! # Theorems -/

/-- Rows with pairwise distinct keys are determined by their key. -/
theorem eq_of_key_nodup {α β : Type} (key : α → β) {l : List α}
    (h : (l.map key).Nodup) {a b : α} (ha : a ∈ l) (hb : b ∈ l)
    (hk : key a = key b) : a = b :=
  List.inj_on_of_nodup_map h ha hb hk

/-- If the filter of `p` is the singleton `[a]`, then `find? p` is `a`. -/
theorem find?_of_filter_singleton {α : Type} {p : α → Bool} :
    ∀ {l : List α} {a : α}, l.filter p = [a] → l.find? p = some a := by
  intro l
  induction l with
  | nil => intro a h; simp [List.filter] at h
  | cons x xs ih =>
    intro a h
    by_cases hx : p x
    · rw [List.filter_cons_of_pos hx] at h
      obtain ⟨rfl, -⟩ := List.cons_eq_cons.mp h
      simp [List.find?, hx]
    · rw [List.filter_cons_of_neg hx] at h
      simp [List.find?, Bool.of_not_eq_true hx, ih h]

/-- The password policy of `register`, read back as the five stated
conditions: length at least 8, an uppercase letter, a lowercase letter,
a digit, and a character outside those three classes. -/
theorem passwordOk_iff (p : String) :
    passwordOk p = true ↔
      (8 ≤ p.length ∧
       (∃ c ∈ p.data, 'A' ≤ c ∧ c ≤ 'Z') ∧
       (∃ c ∈ p.data, 'a' ≤ c ∧ c ≤ 'z') ∧
       (∃ c ∈ p.data, '0' ≤ c ∧ c ≤ '9') ∧
       (∃ c ∈ p.data, ¬('A' ≤ c ∧ c ≤ 'Z') ∧ ¬('a' ≤ c ∧ c ≤ 'z') ∧
          ¬('0' ≤ c ∧ c ≤ '9'))) := by
  simp only [passwordOk, has_upper, has_lower, has_digit, has_special,
    List.any_eq_true, Bool.and_eq_true, decide_eq_true_eq,
    Bool.not_eq_true', Bool.and_eq_false_iff, decide_eq_false_iff_not]
  constructor
  · rintro ⟨⟨⟨⟨h1, c1, hc1, hu⟩, c2, hc2, hl⟩, c3, hc3, hd⟩, c4, hc4, hs⟩
    refine ⟨h1, ⟨c1, hc1, ?_⟩, ⟨c2, hc2, ?_⟩, ⟨c3, hc3, ?_⟩,
      ⟨c4, hc4, ?_, ?_, ?_⟩⟩ <;> tauto
  · rintro ⟨h1, ⟨c1, hc1, hu⟩, ⟨c2, hc2, hl⟩, ⟨c3, hc3, hd⟩,
      c4, hc4, hs1, hs2, hs3⟩
    refine ⟨⟨⟨⟨h1, c1, hc1, ?_⟩, c2, hc2, ?_⟩, c3, hc3, ?_⟩,
      c4, hc4, ?_⟩ <;> tauto

/-- A registration request body with both fields present. -/
def regData (email password : String) (org : Option String) :
    Option RegisterData :=
  some { email := some email, password := some password, organization := org }

/-- **C9**: `register` accepts a password if and only if it has at least 8
characters, at least one uppercase letter, at least one lowercase letter, at
least one digit, and at least one character outside those three classes; any
password violating this is rejected with a 400 and no account is created
(stated for a non-empty, not-yet-registered email, so that no other guard
interferes). -/
theorem register_password_policy (db : DB) (hash : String → String)
    (email password : String) (org : Option String)
    (hemail : email ≠ "")
    (hfresh : ∀ a ∈ db.accounts, a.email ≠ email) :
    (((register db hash (regData email password org)).1.code = 201 ∧
      (register db hash (regData email password org)).2.accounts =
        db.accounts ++ [{ id := db.next_account_id, email := email,
                          password_hash := hash password,
                          organization := org }]) ↔
      (8 ≤ password.length ∧
       (∃ c ∈ password.data, 'A' ≤ c ∧ c ≤ 'Z') ∧
       (∃ c ∈ password.data, 'a' ≤ c ∧ c ≤ 'z') ∧
       (∃ c ∈ password.data, '0' ≤ c ∧ c ≤ '9') ∧
       (∃ c ∈ password.data, ¬('A' ≤ c ∧ c ≤ 'Z') ∧ ¬('a' ≤ c ∧ c ≤ 'z') ∧
          ¬('0' ≤ c ∧ c ≤ '9')))) ∧
    (¬ (8 ≤ password.length ∧
       (∃ c ∈ password.data, 'A' ≤ c ∧ c ≤ 'Z') ∧
       (∃ c ∈ password.data, 'a' ≤ c ∧ c ≤ 'z') ∧
       (∃ c ∈ password.data, '0' ≤ c ∧ c ≤ '9') ∧
       (∃ c ∈ password.data, ¬('A' ≤ c ∧ c ≤ 'Z') ∧ ¬('a' ≤ c ∧ c ≤ 'z') ∧
          ¬('0' ≤ c ∧ c ≤ '9'))) →
      (register db hash (regData email password org)).1.code = 400 ∧
      (register db hash (regData email password org)).2 = db) := by
  by_cases hok : passwordOk password = true
  · have hp : password ≠ "" := by
      rintro rfl
      simp [passwordOk, has_upper] at hok
    have hany : db.accounts.any (fun a => a.email == email) = false := by
      rw [List.any_eq_false]
      intro a ha
      simpa using hfresh a ha
    constructor
    · rw [← passwordOk_iff]
      simp [register, regData, truthyStr, hemail, hp, hok, hany]
    · rw [← passwordOk_iff]
      intro h; exact absurd hok h
  · have hrhsfalse := (not_congr (passwordOk_iff password)).mp
      (by simpa using hok)
    constructor
    · refine iff_of_false ?_ hrhsfalse
      by_cases hp : password = ""
      · subst hp
        simp [register, regData, truthyStr, hemail]
      · simp [register, regData, truthyStr, hemail, hp, hok]
    · intro _
      by_cases hp : password = ""
      · subst hp
        simp [register, regData, truthyStr, hemail]
      · simp [register, regData, truthyStr, hemail, hp, hok]

/-- Witness for **C9**: on an empty store, registering with the compliant
password `Str0ng!Pass` succeeds and creates the account. -/
theorem register_password_policy_witness :
    (register { } idHash (regData "a@b.c" "Str0ng!Pass" none)).1.code = 201 ∧
    (register { } idHash (regData "a@b.c" "Str0ng!Pass" none)).2.accounts =
      [{ id := 1, email := "a@b.c", password_hash := "Str0ng!Pass",
         organization := none }] := by
  have h := register_password_policy { } idHash "a@b.c" "Str0ng!Pass" none
    (by decide) (by intro a ha; simp at ha)
  exact h.1.mpr (by decide)

/-- Counterexample to **C8** as stated: with `a@b.c` already registered, a
second registration for `a@b.c` with the (policy-violating) password `x`
returns 400, not 409 — the password check precedes the duplicate check. -/
theorem register_duplicate_email_counterexample :
    (register dbReg idHash (regData "a@b.c" "x" none)).1.code = 400 ∧
    (register dbReg idHash (regData "a@b.c" "x" none)).1.code ≠ 409 := by
  constructor <;> decide

/-- **C8 (amended)**: for an email already registered, a second `register`
call with that email creates no account and leaves the store unchanged; it
yields 409 when the supplied password passes the password policy and 400
otherwise. -/
theorem register_duplicate_email_conflict (db : DB) (hash : String → String)
    (email password : String) (org : Option String)
    (hemail : email ≠ "")
    (hdup : ∃ a ∈ db.accounts, a.email = email) :
    (register db hash (regData email password org)).2 = db ∧
    (register db hash (regData email password org)).1.code =
      (if passwordOk password then 409 else 400) := by
  obtain ⟨a, ha, hae⟩ := hdup
  have hany : db.accounts.any (fun x => x.email == email) = true :=
    List.any_eq_true.mpr ⟨a, ha, by simp [hae]⟩
  by_cases hp : password = ""
  · subst hp
    have h0 : passwordOk "" = false := by decide
    simp [register, regData, truthyStr, hemail, h0]
  · by_cases hok : passwordOk password
    · simp [register, regData, truthyStr, hemail, hp, hok, hany]
    · simp [register, regData, truthyStr, hemail, hp, hok]

/-- Witness for **C8 (amended)**: re-registering `a@b.c` with a compliant
password yields 409 and changes nothing. -/
theorem register_duplicate_email_conflict_witness :
    (register dbReg idHash (regData "a@b.c" "Str0ng!Pass" none)).2 = dbReg ∧
    (register dbReg idHash (regData "a@b.c" "Str0ng!Pass" none)).1.code = 409 := by
  have h := register_duplicate_email_conflict dbReg idHash "a@b.c" "Str0ng!Pass"
    none (by decide) ⟨{ id := 1, email := "a@b.c", password_hash := "h" },
      by simp [dbReg], rfl⟩
  refine ⟨h.1, ?_⟩
  rw [h.2]
  decide

/-- **C6**: if a post's denormalized `likes` counter equals the cardinality
of its like-set (a duplicate-free set), then after `like_post` and after
`unlike_post` the counter still equals the cardinality, and the set is still
duplicate-free: the two are always mutated together. -/
theorem likes_counter_matches_like_set (db : DB) (uid pid : Nat)
    (post : Post)
    (hids : (db.posts.map Post.id).Nodup)
    (hfind : db.posts.find? (fun p => p.id == pid) = some post)
    (hcount : post.likes = (post.liked_by.length : Int))
    (hnodup : post.liked_by.Nodup) :
    (∀ q ∈ (like_post db uid pid).2.posts, q.id = pid →
       q.likes = (q.liked_by.length : Int) ∧ q.liked_by.Nodup) ∧
    (∀ q ∈ (unlike_post db uid pid).2.posts, q.id = pid →
       q.likes = (q.liked_by.length : Int) ∧ q.liked_by.Nodup) := by
  have hpostmem : post ∈ db.posts := List.mem_of_find?_eq_some hfind
  have hpostid : post.id = pid := by
    have := List.find?_some hfind
    simpa using this
  have hsame : ∀ q ∈ db.posts, q.id = pid → q = post := by
    intro q hq hqid
    exact eq_of_key_nodup Post.id hids hq hpostmem (by rw [hqid, hpostid])
  have hunchanged : ∀ q ∈ db.posts, q.id = pid →
      q.likes = (q.liked_by.length : Int) ∧ q.liked_by.Nodup := by
    intro q hq hqid
    rw [hsame q hq hqid]
    exact ⟨hcount, hnodup⟩
  constructor
  · -- like_post
    rw [like_post]
    cases hacc : db.getAccount uid with
    | none => simpa using hunchanged
    | some account =>
      rw [hfind]
      by_cases hmem : account.id ∈ post.liked_by
      · simp only [if_pos hmem]
        simpa using hunchanged
      · simp only [if_neg hmem]
        intro q hq hqid
        simp only [List.mem_map] at hq
        obtain ⟨p, hp, hpq⟩ := hq
        by_cases hpid : p.id == post.id
        · rw [if_pos hpid] at hpq
          subst hpq
          constructor
          · simp [hcount]
          · simp [List.nodup_append, hnodup, hmem]
        · rw [if_neg hpid] at hpq
          subst hpq
          exact hunchanged p hp hqid
  · -- unlike_post
    rw [unlike_post]
    cases hacc : db.getAccount uid with
    | none => simpa using hunchanged
    | some account =>
      rw [hfind]
      by_cases hmem : account.id ∈ post.liked_by
      · simp only [if_neg (not_not_intro hmem)]
        intro q hq hqid
        simp only [List.mem_map] at hq
        obtain ⟨p, hp, hpq⟩ := hq
        by_cases hpid : p.id == post.id
        · rw [if_pos hpid] at hpq
          subst hpq
          have hlen : (post.liked_by.erase account.id).length =
              post.liked_by.length - 1 := List.length_erase_of_mem hmem
          have hpos : 0 < post.liked_by.length :=
            List.length_pos.mpr (by intro h; rw [h] at hmem; simp at hmem)
          constructor
          · have hgt : post.likes > 0 := by
              rw [hcount]; exact_mod_cast hpos
            simp only [if_pos hgt, hlen, hcount]
            omega
          · exact hnodup.erase _
        · rw [if_neg hpid] at hpq
          subst hpq
          exact hunchanged p hp hqid
      · simp only [if_pos hmem]
        simpa using hunchanged

/-- Witness for **C6**: on `dbPosts` (post 3 with one like), both operations
preserve the counter/like-set agreement. -/
theorem likes_counter_matches_like_set_witness :
    (∀ q ∈ (like_post dbPosts 1 3).2.posts, q.id = 3 →
       q.likes = (q.liked_by.length : Int) ∧ q.liked_by.Nodup) ∧
    (∀ q ∈ (unlike_post dbPosts 1 3).2.posts, q.id = 3 →
       q.likes = (q.liked_by.length : Int) ∧ q.liked_by.Nodup) :=
  likes_counter_matches_like_set dbPosts 1 3 postDemo
    (by decide) (by decide) (by decide) (by decide)

/-- **C7**: `like_post` on an already-liked post and `unlike_post` on a
not-liked post are no-ops returning success with the current count; otherwise
the operation toggles the caller's membership and moves the counter by
exactly one — `unlike_post` flooring it at zero, so a non-negative counter
never becomes negative. -/
theorem like_unlike_toggle (db : DB) (uid pid : Nat)
    (account : Account) (post : Post)
    (hacc : db.getAccount uid = some account)
    (hfind : db.posts.find? (fun p => p.id == pid) = some post)
    (hnodup : post.liked_by.Nodup)
    (hnonneg : 0 ≤ post.likes) :
    (account.id ∈ post.liked_by →
       like_post db uid pid =
         ({ code := 200, msg := "Already liked", likes := some post.likes }, db)) ∧
    (account.id ∉ post.liked_by →
       unlike_post db uid pid =
         ({ code := 200, msg := "Not liked yet", likes := some post.likes }, db)) ∧
    (account.id ∉ post.liked_by →
       (like_post db uid pid).1.likes = some (post.likes + 1) ∧
       ∀ q ∈ (like_post db uid pid).2.posts, q.id = pid →
         account.id ∈ q.liked_by ∧ q.likes = post.likes + 1) ∧
    (account.id ∈ post.liked_by →
       (unlike_post db uid pid).1.likes = some (max (post.likes - 1) 0) ∧
       ∀ q ∈ (unlike_post db uid pid).2.posts, q.id = pid →
         account.id ∉ q.liked_by ∧ q.likes = max (post.likes - 1) 0 ∧
           0 ≤ q.likes) := by
  have hpostmem : post ∈ db.posts := List.mem_of_find?_eq_some hfind
  have hpostid : post.id = pid := by simpa using List.find?_some hfind
  have hfloor : (if post.likes > 0 then post.likes - 1 else post.likes) =
      max (post.likes - 1) 0 := by
    by_cases h : post.likes > 0
    · rw [if_pos h]; omega
    · rw [if_neg h]; omega
  refine ⟨?_, ?_, ?_, ?_⟩
  · intro hmem
    rw [like_post, hacc, hfind]
    simp [if_pos hmem]
  · intro hmem
    rw [unlike_post, hacc, hfind]
    simp [if_pos hmem]
  · intro hmem
    rw [like_post, hacc, hfind]
    simp only [if_neg hmem]
    refine ⟨by simp, ?_⟩
    intro q hq hqid
    simp only [List.mem_map] at hq
    obtain ⟨p, hp, hpq⟩ := hq
    by_cases hpid : p.id == post.id
    · rw [if_pos hpid] at hpq
      subst hpq
      simp
    · rw [if_neg hpid] at hpq
      subst hpq
      exact absurd (hqid.trans hpostid.symm) (by simpa using hpid)
  · intro hmem
    rw [unlike_post, hacc, hfind]
    simp only [if_neg (not_not_intro hmem)]
    refine ⟨by simp [hfloor], ?_⟩
    intro q hq hqid
    simp only [List.mem_map] at hq
    obtain ⟨p, hp, hpq⟩ := hq
    by_cases hpid : p.id == post.id
    · rw [if_pos hpid] at hpq
      subst hpq
      refine ⟨?_, by simp [hfloor], ?_⟩
      · intro hcontra
        exact ((List.Nodup.mem_erase_iff hnodup).mp
          (by simpa using hcontra)).1 rfl
      · simp only [hfloor]
        omega
    · rw [if_neg hpid] at hpq
      subst hpq
      exact absurd (hqid.trans hpostid.symm) (by simpa using hpid)

/-- Witness for **C7**: on `dbPosts`, unliking as a non-liker is a no-op,
unliking as the liker drops the count from 1 to 0, and liking as a new
account raises it from 1 to 2. -/
theorem like_unlike_toggle_witness :
    (unlike_post dbPosts 1 3 =
      ({ code := 200, msg := "Not liked yet", likes := some 1 }, dbPosts)) ∧
    ((unlike_post dbPosts 2 3).1.likes = some 0) ∧
    ((like_post dbPosts 1 3).1.likes = some 2) := by
  have h1 := like_unlike_toggle dbPosts 1 3
    { id := 1, email := "u@x", password_hash := "h" } postDemo
    (by decide) (by decide) (by decide) (by decide)
  have h2 := like_unlike_toggle dbPosts 2 3
    { id := 2, email := "v@x", password_hash := "h" } postDemo
    (by decide) (by decide) (by decide) (by decide)
  refine ⟨h1.2.1 (by decide), ?_, ?_⟩
  · have := (h2.2.2.2 (by decide)).1
    simpa using this
  · have := (h1.2.2.1 (by decide)).1
    simpa using this

/-- **C5**: under the guards (caller and profiles resolve, target exists and
differs from the sender), and on a store where every stored relation is
accepted (the spec-modelled default), `send_friend_request` fails with a
conflict exactly when an accepted Relation already connects the pair in
either direction or a pending request from sender to target already exists;
and a conflict writes nothing. -/
theorem send_friend_request_conflict (db : DB) (uid tid : Nat)
    (account : Account) (sender_profile target_profile : Profile)
    (hacc : db.getAccount uid = some account)
    (hprof : db.firstProfile account.id = some sender_profile)
    (htid : tid ≠ 0)
    (htarget : db.getProfile tid = some target_profile)
    (hne : sender_profile.id ≠ target_profile.id)
    (hrel : ∀ r ∈ db.relations, r.status = "accepted") :
    ((send_friend_request db uid (some { classroomId := some tid })).1.code = 400 ↔
      ((∃ rel ∈ db.relations, rel.status = "accepted" ∧
          ((rel.from_profile_id = sender_profile.id ∧
            rel.to_profile_id = target_profile.id) ∨
           (rel.from_profile_id = target_profile.id ∧
            rel.to_profile_id = sender_profile.id))) ∨
       (∃ fr ∈ db.friend_requests, fr.status = "pending" ∧
          fr.sender_profile_id = sender_profile.id ∧
          fr.receiver_profile_id = target_profile.id))) ∧
    ((send_friend_request db uid (some { classroomId := some tid })).1.code = 400 →
      (send_friend_request db uid (some { classroomId := some tid })).2 = db) := by
  have htid' : (tid == 0) = false := by simpa using htid
  have hne' : (sender_profile.id == target_profile.id) = false := by
    simpa using hne
  simp only [send_friend_request, hacc, hprof, htarget, htid', hne',
    Bool.false_eq_true, if_false]
  by_cases hrelany : db.relations.any (connects sender_profile.id target_profile.id) = true
  · rw [if_pos hrelany]
    obtain ⟨rel, hmem, hconn⟩ := List.any_eq_true.mp hrelany
    simp only [connects, Bool.or_eq_true, Bool.and_eq_true, beq_iff_eq] at hconn
    constructor
    · simp only [true_iff]
      · exact Or.inl ⟨rel, hmem, hrel rel hmem, by tauto⟩
    · intro _; rfl
  · rw [if_neg hrelany]
    by_cases hreqany : db.friend_requests.any
        (pendingFrom sender_profile.id target_profile.id) = true
    · rw [if_pos hreqany]
      obtain ⟨fr, hmem, hp⟩ := List.any_eq_true.mp hreqany
      simp only [pendingFrom, Bool.and_eq_true, beq_iff_eq] at hp
      constructor
      · simp only [true_iff]
        exact Or.inr ⟨fr, hmem, hp.2, hp.1.1, hp.1.2⟩
      · intro _; rfl
    · rw [if_neg hreqany]
      have hnot : ¬ ((∃ rel ∈ db.relations, rel.status = "accepted" ∧
          ((rel.from_profile_id = sender_profile.id ∧
            rel.to_profile_id = target_profile.id) ∨
           (rel.from_profile_id = target_profile.id ∧
            rel.to_profile_id = sender_profile.id))) ∨
         (∃ fr ∈ db.friend_requests, fr.status = "pending" ∧
            fr.sender_profile_id = sender_profile.id ∧
            fr.receiver_profile_id = target_profile.id)) := by
        rintro (⟨rel, hmem, hst, hdir⟩ | ⟨fr, hmem, hst, hs, hr⟩)
        · exact hrelany (List.any_eq_true.mpr ⟨rel, hmem,
            by simp only [connects, Bool.or_eq_true, Bool.and_eq_true,
              beq_iff_eq]; tauto⟩)
        · exact hreqany (List.any_eq_true.mpr ⟨fr, hmem,
            by simp only [pendingFrom, Bool.and_eq_true, beq_iff_eq]; tauto⟩)
      cases hfind : db.friend_requests.find?
          (pendingFrom target_profile.id sender_profile.id) with
      | some reverse_request =>
        constructor
        · exact iff_of_false (by simp) hnot
        · intro h; simp at h
      | none =>
        constructor
        · exact iff_of_false (by simp) hnot
        · intro h; simp at h

/-- **C4**: with a pending reverse friend request from the target's profile
`pb` to the caller's profile `pa` (and it being the only one), no relation
between the pair and no pending forward request, `send_friend_request`
returns status `accepted`, marks the reverse request accepted, creates
exactly the two accepted relation rows `pb→pa` and `pa→pb`, emits exactly
one notification, addressed to `pb`'s owning account, and leaves no pending
request between the pair. -/
theorem send_friend_request_mutual (db : DB) (uid tid : Nat)
    (account : Account) (pa pb : Profile) (req : FriendRequest)
    (hacc : db.getAccount uid = some account)
    (hprof : db.firstProfile account.id = some pa)
    (htid : tid ≠ 0)
    (htarget : db.getProfile tid = some pb)
    (hne : pa.id ≠ pb.id)
    (hnorel : ∀ r ∈ db.relations, connects pa.id pb.id r = false)
    (hnofwd : ∀ fr ∈ db.friend_requests, pendingFrom pa.id pb.id fr = false)
    (hrev : db.friend_requests.filter (pendingFrom pb.id pa.id) = [req]) :
    (send_friend_request db uid (some { classroomId := some tid })).1.code = 200 ∧
    (send_friend_request db uid (some { classroomId := some tid })).1.status =
      some "accepted" ∧
    (∃ fr ∈ (send_friend_request db uid
        (some { classroomId := some tid })).2.friend_requests,
      fr.id = req.id ∧ fr.status = "accepted") ∧
    (send_friend_request db uid
        (some { classroomId := some tid })).2.relations.filter
        (connects pa.id pb.id) =
      [{ from_profile_id := pb.id, to_profile_id := pa.id,
         status := "accepted" },
       { from_profile_id := pa.id, to_profile_id := pb.id,
         status := "accepted" }] ∧
    (send_friend_request db uid
        (some { classroomId := some tid })).2.notifications =
      db.notifications ++
        [{ account_id := pb.account_id, title := "Friend Request Accepted",
           message := some (pa.name ++ " accepted your friend request!"),
           type := "success", related_id := some (toString pa.id) }] ∧
    (send_friend_request db uid
        (some { classroomId := some tid })).2.friend_requests.filter
        (fun fr => pendingFrom pa.id pb.id fr || pendingFrom pb.id pa.id fr) =
      [] := by
  have htid' : (tid == 0) = false := by simpa using htid
  have hne' : (pa.id == pb.id) = false := by simpa using hne
  have hrelany : db.relations.any (connects pa.id pb.id) = false :=
    List.any_eq_false.mpr (fun r hr => by simp [hnorel r hr])
  have hreqany : db.friend_requests.any (pendingFrom pa.id pb.id) = false :=
    List.any_eq_false.mpr (fun fr hfr => by simp [hnofwd fr hfr])
  have hfind : db.friend_requests.find? (pendingFrom pb.id pa.id) = some req :=
    find?_of_filter_singleton hrev
  have hreqmem : req ∈ db.friend_requests := List.mem_of_find?_eq_some hfind
  have hrevuniq : ∀ fr ∈ db.friend_requests,
      pendingFrom pb.id pa.id fr = true → fr = req := by
    intro fr hmem hp
    have : fr ∈ db.friend_requests.filter (pendingFrom pb.id pa.id) :=
      List.mem_filter.mpr ⟨hmem, hp⟩
    rw [hrev] at this
    simpa using this
  have hreqpend : pendingFrom pb.id pa.id req = true := List.find?_some hfind
  simp only [send_friend_request, hacc, hprof, htarget, htid', hne',
    Bool.false_eq_true, if_false, hrelany, hreqany, hfind]
  refine ⟨trivial, trivial, ?_, ?_, trivial, ?_⟩
  · -- the reverse request is marked accepted
    refine ⟨{ req with status := "accepted" }, ?_, rfl, rfl⟩
    simp only [List.mem_map]
    exact ⟨req, hreqmem, by simp⟩
  · -- exactly the two new relation rows connect pa and pb
    rw [List.filter_append]
    rw [List.filter_eq_nil_iff.mpr (by intro r hr; simp [hnorel r hr])]
    simp [connects, relationDefaultStatus, hne']
  · -- no pending request remains between pa and pb
    rw [List.filter_eq_nil_iff]
    intro fr hmem
    simp only [List.mem_map] at hmem
    obtain ⟨fr0, hfr0, heq⟩ := hmem
    by_cases hid : fr0.id == req.id
    · rw [if_pos hid] at heq
      subst heq
      simp [pendingFrom]
    · rw [if_neg hid] at heq
      subst heq
      have h1 := hnofwd fr0 hfr0
      intro hcontra
      have hcontra' : pendingFrom pa.id pb.id fr0 = true ∨
          pendingFrom pb.id pa.id fr0 = true := by simpa using hcontra
      rcases hcontra' with h | h
      · rw [h1] at h; exact Bool.false_ne_true h
      · have := hrevuniq fr0 hfr0 h
        subst this
        simp at hid

/-- `dbFriends` with an existing accepted relation 10→20 and no requests. -/
def dbFriendsRel : DB :=
  { dbFriends with
      relations := [{ from_profile_id := 10, to_profile_id := 20 }],
      friend_requests := [] }

/-- Witness for **C5**: with relation 10→20 stored, Alice's request to
profile 20 conflicts and writes nothing. -/
theorem send_friend_request_conflict_witness :
    (send_friend_request dbFriendsRel 1 (some { classroomId := some 20 })).1.code = 400 ∧
    (send_friend_request dbFriendsRel 1 (some { classroomId := some 20 })).2 = dbFriendsRel := by
  have h := send_friend_request_conflict dbFriendsRel 1 20
    { id := 1, email := "alice@x", password_hash := "h" }
    { id := 10, account_id := 1, name := "Room 9" }
    { id := 20, account_id := 2, name := "Room 4" }
    (by decide) (by decide) (by decide) (by decide) (by decide) (by decide)
  have hc := h.1.mpr (Or.inl ⟨{ from_profile_id := 10, to_profile_id := 20 },
    by decide, by decide, Or.inl ⟨rfl, rfl⟩⟩)
  exact ⟨hc, h.2 hc⟩

/-- Witness for **C4**: on `dbFriends` (Bob's pending request 20→10),
Alice's request to profile 20 auto-accepts. -/
theorem send_friend_request_mutual_witness :
    (send_friend_request dbFriends 1 (some { classroomId := some 20 })).1.status =
      some "accepted" ∧
    (send_friend_request dbFriends 1
        (some { classroomId := some 20 })).2.relations.filter (connects 10 20) =
      [{ from_profile_id := 20, to_profile_id := 10, status := "accepted" },
       { from_profile_id := 10, to_profile_id := 20, status := "accepted" }] ∧
    (send_friend_request dbFriends 1
        (some { classroomId := some 20 })).2.friend_requests.filter
        (fun fr => pendingFrom 10 20 fr || pendingFrom 20 10 fr) = [] := by
  have h := send_friend_request_mutual dbFriends 1 20
    { id := 1, email := "alice@x", password_hash := "h" }
    { id := 10, account_id := 1, name := "Room 9" }
    { id := 20, account_id := 2, name := "Room 4" }
    { id := 4, sender_profile_id := 20, receiver_profile_id := 10 }
    (by decide) (by decide) (by decide) (by decide) (by decide) (by decide)
    (by decide) (by decide)
  exact ⟨h.2.1, h.2.2.2.1, h.2.2.2.2.2⟩

/-- The refresh block commits only token fields: invitations, meetings and
the meeting id counter are untouched. -/
theorem refreshStage_preserves (db : DB) (sa : Account) (now : Int)
    (rr : Except String TokenData) (db1 : DB) (sa1 : Account)
    (h : refreshStage db sa now rr = some (db1, sa1)) :
    db1.invitations = db.invitations ∧ db1.meetings = db.meetings ∧
      db1.next_meeting_id = db.next_meeting_id := by
  rw [refreshStage.eq_def] at h
  simp only [] at h
  split at h
  · split at h
    · exact absurd h (by simp)
    · obtain ⟨rfl, rfl⟩ := Prod.mk.injEq .. ▸ (Option.some.injEq .. ▸ h)
      exact ⟨rfl, rfl, rfl⟩
  · obtain ⟨rfl, rfl⟩ := Prod.mk.injEq .. ▸ (Option.some.injEq .. ▸ h)
    exact ⟨rfl, rfl, rfl⟩

/-- `accept_invitation` either leaves the invitations table unchanged or
rewrites exactly one invitation that was found pending, to accepted. -/
theorem accept_invitation_shape (db : DB) (now : Int)
    (rr : Except String TokenData) (cr : Except String WebexMeetingData)
    (uid iid : Nat) :
    ((accept_invitation db now rr cr uid iid).2.invitations = db.invitations) ∨
    (∃ inv, db.invitations.find? (fun i => i.id == iid) = some inv ∧
      inv.status = "pending" ∧
      (accept_invitation db now rr cr uid iid).2.invitations =
        db.invitations.map (fun i => if i.id == inv.id then
          { inv with status := "accepted", meeting_id := none } else i)) := by
  unfold accept_invitation
  repeat' split
  all_goals try exact Or.inl rfl
  · rename_i db1 sa1 hrs cres e
    exact Or.inl (refreshStage_preserves db _ now rr db1 sa1 hrs).1
  · rename_i x5 account1 hacc x4 rprof hprof x3 invitation hfind hrecv hst
      x2 sprof hsp x1 sacc hsa htok x0 db1 sa1 hrs cres wm
    have hpending : invitation.status = "pending" := by simpa using hst
    refine Or.inr ⟨invitation, hfind, hpending, ?_⟩
    have hpres := (refreshStage_preserves db sacc now rr db1 sa1 hrs).1
    simp only [hpres]

/-- `decline_invitation` either leaves the invitations table unchanged or
rewrites exactly one invitation that was found pending, to declined. -/
theorem decline_invitation_shape (db : DB) (uid iid : Nat) :
    ((decline_invitation db uid iid).2.invitations = db.invitations) ∨
    (∃ inv, db.invitations.find? (fun i => i.id == iid) = some inv ∧
      inv.status = "pending" ∧
      (decline_invitation db uid iid).2.invitations =
        db.invitations.map (fun i => if i.id == inv.id then
          { inv with status := "declined" } else i)) := by
  unfold decline_invitation
  repeat' split
  all_goals try exact Or.inl rfl
  rename_i x5 account hacc x4 rprof hprof x3 invitation hfind hrecv hst
  have hpending : invitation.status = "pending" := by simpa using hst
  exact Or.inr ⟨invitation, hfind, hpending, rfl⟩

/-- `cancel_invitation` either leaves the invitations table unchanged or
rewrites exactly one invitation that was found pending, to cancelled. -/
theorem cancel_invitation_shape (db : DB) (uid iid : Nat) :
    ((cancel_invitation db uid iid).2.invitations = db.invitations) ∨
    (∃ inv, db.invitations.find? (fun i => i.id == iid) = some inv ∧
      inv.status = "pending" ∧
      (cancel_invitation db uid iid).2.invitations =
        db.invitations.map (fun i => if i.id == inv.id then
          { inv with status := "cancelled" } else i)) := by
  unfold cancel_invitation
  repeat' split
  all_goals try exact Or.inl rfl
  rename_i x5 account hacc x4 sprof hprof x3 invitation hfind hsend hst
  have hpending : invitation.status = "pending" := by simpa using hst
  exact Or.inr ⟨invitation, hfind, hpending, rfl⟩

/-- A terminal invitation row is untouched by any update of the two shapes
the three handlers can produce (identity, or replacing a pending row). -/
theorem invitation_status_frozen_aux (invs invs' : List MeetingInvitation)
    (hkeys : (invs.map MeetingInvitation.id).Nodup)
    (hshape : invs' = invs ∨ ∃ inv0 inv1, inv0 ∈ invs ∧
      inv0.status = "pending" ∧ inv1.id = inv0.id ∧
      invs' = invs.map (fun i => if i.id == inv0.id then inv1 else i))
    (inv : MeetingInvitation) (hmem : inv ∈ invs)
    (hne : inv.status ≠ "pending") :
    ∀ j ∈ invs', j.id = inv.id → j.status = inv.status := by
  intro j hj hid
  rcases hshape with rfl | ⟨inv0, inv1, hmem0, hpend0, hid1, rfl⟩
  · rw [eq_of_key_nodup MeetingInvitation.id hkeys hj hmem hid]
  · simp only [List.mem_map] at hj
    obtain ⟨orig, horig, heq⟩ := hj
    by_cases h0 : orig.id == inv0.id
    · rw [if_pos h0] at heq
      subst heq
      exfalso
      have heq0 : inv0 = inv := eq_of_key_nodup MeetingInvitation.id hkeys
        hmem0 hmem (by rw [← hid, hid1])
      rw [heq0] at hpend0
      exact hne hpend0
    · rw [if_neg h0] at heq
      subst heq
      rw [eq_of_key_nodup MeetingInvitation.id hkeys horig hmem hid]

/-- **C1**: for an invitation in a terminal state (accepted, declined or
cancelled), accept and decline (by the receiver) and cancel (by the sender)
all fail with a conflict whose message reports the current status and leave
the store unchanged; and no call of any of the three operations, by any
caller, ever changes the status of a terminal invitation. -/
theorem invitation_terminal_frozen (db : DB) (uid iid : Nat)
    (account : Account) (profile : Profile) (inv : MeetingInvitation)
    (hacc : db.getAccount uid = some account)
    (hprof : db.firstProfile account.id = some profile)
    (hfind : db.invitations.find? (fun i => i.id == iid) = some inv)
    (hterm : inv.status = "accepted" ∨ inv.status = "declined" ∨
      inv.status = "cancelled")
    (hkeys : (db.invitations.map MeetingInvitation.id).Nodup) :
    (inv.receiver_profile_id = profile.id →
      (∀ now rr cr, accept_invitation db now rr cr uid iid =
        (.resp 400 ("Invitation is already " ++ inv.status), db)) ∧
      decline_invitation db uid iid =
        (.resp 400 ("Invitation is already " ++ inv.status), db)) ∧
    (inv.sender_profile_id = profile.id →
      cancel_invitation db uid iid =
        (.resp 400 ("Cannot cancel " ++ inv.status ++ " invitation"), db)) ∧
    (∀ now rr cr uid2 iid2,
      ∀ j ∈ (accept_invitation db now rr cr uid2 iid2).2.invitations,
        j.id = inv.id → j.status = inv.status) ∧
    (∀ uid2 iid2, ∀ j ∈ (decline_invitation db uid2 iid2).2.invitations,
        j.id = inv.id → j.status = inv.status) ∧
    (∀ uid2 iid2, ∀ j ∈ (cancel_invitation db uid2 iid2).2.invitations,
        j.id = inv.id → j.status = inv.status) := by
  have hnp : inv.status ≠ "pending" := by
    rcases hterm with h | h | h <;> rw [h] <;> decide
  have hst : (inv.status != "pending") = true := by simpa using hnp
  have hmem : inv ∈ db.invitations := List.mem_of_find?_eq_some hfind
  refine ⟨?_, ?_, ?_, ?_, ?_⟩
  · intro hrecv
    have hrecv' : (inv.receiver_profile_id != profile.id) = false := by
      simp [hrecv]
    constructor
    · intro now rr cr
      simp only [accept_invitation, hacc, hprof, hfind, hrecv',
        Bool.false_eq_true, if_false, hst, if_true]
    · simp only [decline_invitation, hacc, hprof, hfind, hrecv',
        Bool.false_eq_true, if_false, hst, if_true]
  · intro hsend
    have hsend' : (inv.sender_profile_id != profile.id) = false := by
      simp [hsend]
    simp only [cancel_invitation, hacc, hprof, hfind, hsend',
      Bool.false_eq_true, if_false, hst, if_true]
  · intro now rr cr uid2 iid2
    refine invitation_status_frozen_aux db.invitations _ hkeys ?_ inv hmem hnp
    rcases accept_invitation_shape db now rr cr uid2 iid2 with h | ⟨inv0, hf, hp, hm⟩
    · exact Or.inl h
    · exact Or.inr ⟨inv0, { inv0 with status := "accepted", meeting_id := none },
        List.mem_of_find?_eq_some hf, hp, rfl, hm⟩
  · intro uid2 iid2
    refine invitation_status_frozen_aux db.invitations _ hkeys ?_ inv hmem hnp
    rcases decline_invitation_shape db uid2 iid2 with h | ⟨inv0, hf, hp, hm⟩
    · exact Or.inl h
    · exact Or.inr ⟨inv0, { inv0 with status := "declined" },
        List.mem_of_find?_eq_some hf, hp, rfl, hm⟩
  · intro uid2 iid2
    refine invitation_status_frozen_aux db.invitations _ hkeys ?_ inv hmem hnp
    rcases cancel_invitation_shape db uid2 iid2 with h | ⟨inv0, hf, hp, hm⟩
    · exact Or.inl h
    · exact Or.inr ⟨inv0, { inv0 with status := "cancelled" },
        List.mem_of_find?_eq_some hf, hp, rfl, hm⟩

/-- Witness for **C1**: on `dbInvTerminal` (invitation 5 cancelled), accept
and decline by the receiver both report the conflict and change nothing. -/
theorem invitation_terminal_frozen_witness :
    accept_invitation dbInvTerminal 0 (.ok {}) (.ok {}) 2 5 =
      (.resp 400 ("Invitation is already " ++ "cancelled"), dbInvTerminal) ∧
    decline_invitation dbInvTerminal 2 5 =
      (.resp 400 ("Invitation is already " ++ "cancelled"), dbInvTerminal) := by
  have h := invitation_terminal_frozen dbInvTerminal 2 5
    { id := 2, email := "r@x", password_hash := "h" }
    { id := 20, account_id := 2 }
    { id := 5, sender_profile_id := 10, receiver_profile_id := 20,
      title := "T", start_time := 0, end_time := 3600, status := "cancelled" }
    (by decide) (by decide) (by decide) (Or.inr (Or.inr rfl)) (by decide)
  obtain ⟨ha, hd⟩ := h.1 rfl
  exact ⟨ha 0 (.ok {}) (.ok {}), hd⟩

/-- **C2**: for a pending invitation addressed to the caller, each failure
mode of `accept_invitation` — sender without a stored WebEx token, expired
token whose refresh fails, or a raising `create_meeting` gateway call —
leaves the invitation pending and creates no Meeting row (the first two
leave the store untouched; the third commits only refreshed token fields). -/
theorem accept_invitation_failures (db : DB) (now : Int)
    (uid iid : Nat) (account : Account) (receiver_profile : Profile)
    (inv : MeetingInvitation) (sender_profile : Profile)
    (sender_account : Account)
    (hacc : db.getAccount uid = some account)
    (hprof : db.firstProfile account.id = some receiver_profile)
    (hfind : db.invitations.find? (fun i => i.id == iid) = some inv)
    (hrecv : inv.receiver_profile_id = receiver_profile.id)
    (hpend : inv.status = "pending")
    (hsp : db.getProfile inv.sender_profile_id = some sender_profile)
    (hsa : db.getAccount sender_profile.account_id = some sender_account) :
    (sender_account.webex_access_token = none →
      ∀ rr cr, accept_invitation db now rr cr uid iid =
        (.resp 403 "The meeting organizer's WebEx account is not connected",
         db)) ∧
    (∀ tok t e, sender_account.webex_access_token = some tok →
      sender_account.webex_token_expires_at = some t → t < now →
      ∀ cr, accept_invitation db now (.error e) cr uid iid =
        (.resp 403 "Failed to refresh organizer's WebEx session. Please try again later.",
         db)) ∧
    (∀ tok rr db1 sa1 e, sender_account.webex_access_token = some tok →
      refreshStage db sender_account now rr = some (db1, sa1) →
      accept_invitation db now rr (.error e) uid iid =
        (.resp 500 ("Failed to create WebEx meeting: " ++ e), db1) ∧
      (accept_invitation db now rr (.error e) uid iid).2.invitations =
        db.invitations ∧
      (accept_invitation db now rr (.error e) uid iid).2.meetings =
        db.meetings) := by
  have hrecv' : (inv.receiver_profile_id != receiver_profile.id) = false := by
    simp [hrecv]
  have hst' : (inv.status != "pending") = false := by simp [hpend]
  refine ⟨?_, ?_, ?_⟩
  · intro htok rr cr
    have htok' : sender_account.webex_access_token.isNone = true := by
      simp [htok]
    simp only [accept_invitation, hacc, hprof, hfind, hrecv', hst',
      Bool.false_eq_true, if_false, hsp, hsa, htok', if_true]
  · intro tok t e htok hexp hlt cr
    have htok' : sender_account.webex_access_token.isNone = false := by
      simp [htok]
    have hrs : refreshStage db sender_account now (.error e) = none := by
      rw [refreshStage.eq_def]
      simp only [hexp, decide_eq_true (by exact hlt)]
      simp
    simp only [accept_invitation, hacc, hprof, hfind, hrecv', hst',
      Bool.false_eq_true, if_false, hsp, hsa, htok', hrs]
  · intro tok rr db1 sa1 e htok hrs
    have htok' : sender_account.webex_access_token.isNone = false := by
      simp [htok]
    have hpres := refreshStage_preserves db sender_account now rr db1 sa1 hrs
    refine ⟨?_, ?_, ?_⟩ <;>
      simp only [accept_invitation, hacc, hprof, hfind, hrecv', hst',
        Bool.false_eq_true, if_false, hsp, hsa, htok', hrs]
    · exact hpres.1
    · exact hpres.2.1

/-- Witness for **C2**: accepting with a token-less sender (403) and with an
expired token whose refresh fails (403) both leave the store unchanged. -/
theorem accept_invitation_failures_witness :
    accept_invitation dbInvNoToken 0 (.ok {}) (.ok {}) 2 5 =
      (.resp 403 "The meeting organizer's WebEx account is not connected",
       dbInvNoToken) ∧
    accept_invitation dbInvPending 0 (.error "boom") (.ok {}) 2 5 =
      (.resp 403 "Failed to refresh organizer's WebEx session. Please try again later.",
       dbInvPending) := by
  have h1 := accept_invitation_failures dbInvNoToken 0 2 5
    { id := 2, email := "r@x", password_hash := "h" }
    { id := 20, account_id := 2 }
    { id := 5, sender_profile_id := 10, receiver_profile_id := 20,
      title := "T", start_time := 0, end_time := 3600 }
    { id := 10, account_id := 1 }
    { id := 1, email := "s@x", password_hash := "h" }
    (by decide) (by decide) (by decide) rfl rfl (by decide) (by decide)
  have h2 := accept_invitation_failures dbInvPending 0 2 5
    { id := 2, email := "r@x", password_hash := "h" }
    { id := 20, account_id := 2 }
    { id := 5, sender_profile_id := 10, receiver_profile_id := 20,
      title := "T", start_time := 0, end_time := 3600 }
    { id := 10, account_id := 1 }
    { id := 1, email := "s@x", password_hash := "h",
      webex_access_token := some "tok", webex_refresh_token := some "ref",
      webex_token_expires_at := some (-10) }
    (by decide) (by decide) (by decide) rfl rfl (by decide) (by decide)
  exact ⟨h1.1 rfl (.ok {}) (.ok {}),
         h2.2.1 "tok" (-10) "boom" rfl rfl (by decide) (.ok {})⟩

/-- **C3** (bug evaluation): on `dbAcceptOk`, accepting invitation 5 creates
the meeting (id 7, creator 10, participant 20) and flips the status to
accepted, but the invitation's `meeting_id` stays `none` instead of
becoming `some 7`: the handler assigns `invitation.meeting_id =
new_meeting.id` before the session flush generates the meeting's primary
key. -/
theorem accept_invitation_meeting_link_bug :
    accept_invitation dbAcceptOk 0 (.ok {}) (.ok wmDemo) 2 5 =
      (.resp 201 "Invitation accepted. Meeting created successfully!",
       { dbAcceptOk with
           invitations := [{ id := 5, sender_profile_id := 10,
                             receiver_profile_id := 20, title := "T",
                             start_time := 0, end_time := 3600,
                             status := "accepted", meeting_id := none }],
           meetings := [{ id := 7, webex_id := some "wx", title := "T",
                          start_time := 0, end_time := 3600,
                          web_link := some "https://wx/join",
                          password := some "pw", creator_id := 10,
                          participants := [20] }],
           next_meeting_id := 8 }) ∧
    (accept_invitation dbAcceptOk 0 (.ok {}) (.ok wmDemo) 2 5
      ).2.invitations.map MeetingInvitation.meeting_id ≠ [some 7] := by
  constructor <;> decide

/-- **C10**: if exactly one of `start_time`/`end_time` is supplied (the
other missing or empty), the supplied value is ignored — for every parser —
and the invitation is persisted with the default instant window
`[now, now + 3600]`. -/
theorem create_meeting_one_time_ignored (db : DB) (now : Int)
    (parseIso : String → Option Int) (uid : Nat) (body : CreateMeetingBody)
    (account : Account) (creator receiver : Profile) (n : Int)
    (hacc : db.getAccount uid = some account)
    (hprof : db.firstProfile account.id = some creator)
    (hcid : body.classroom_id = some (.num n))
    (hn : n ≠ 0)
    (hrecv : db.profiles.find? (fun p => (p.id : Int) == n) = some receiver)
    (hne : creator.id ≠ receiver.id)
    (hone : (truthyStr body.start_time = false ∧ truthyStr body.end_time = true) ∨
            (truthyStr body.start_time = true ∧ truthyStr body.end_time = false)) :
    create_webex_meeting db now parseIso uid body =
      (.resp 201 "Meeting invitation sent successfully",
       { db with
           invitations := db.invitations ++
             [{ id := db.next_invitation_id,
                sender_profile_id := creator.id,
                receiver_profile_id := receiver.id,
                title := body.title.getD "Classroom Meeting",
                start_time := now, end_time := now + 3600,
                status := "pending" }],
           next_invitation_id := db.next_invitation_id + 1 }) := by
  have htruthy : truthyId (some (JsonId.num n)) = true := by
    simpa [truthyId] using hn
  have hne2 : (creator.id == receiver.id) = false := by simpa using hne
  have hdefault : (!truthyStr body.start_time || !truthyStr body.end_time) = true := by
    rcases hone with ⟨h1, h2⟩ | ⟨h1, h2⟩ <;> simp [h1, h2]
  simp only [create_webex_meeting, hacc, hprof, hcid, htruthy, hne2,
    Bool.not_true, Bool.false_eq_true, if_false, if_true, hrecv, hdefault]

/-- Witness for **C10**: supplying only a start time (and a parser that
would reject it) still yields the window `[100, 3700]`. -/
theorem create_meeting_one_time_ignored_witness :
    (create_webex_meeting dbInvPending 100 (fun _ => none) 1
        { start_time := some "2025-01-01T00:00:00Z",
          classroom_id := some (.num 20) }).2.invitations.map
        (fun i => (i.start_time, i.end_time, i.status)) =
      [(0, 3600, "pending"), (100, 3700, "pending")] := by
  have h := create_meeting_one_time_ignored dbInvPending 100 (fun _ => none) 1
    { start_time := some "2025-01-01T00:00:00Z",
      classroom_id := some (.num 20) }
    { id := 1, email := "s@x", password_hash := "h",
      webex_access_token := some "tok", webex_refresh_token := some "ref",
      webex_token_expires_at := some (-10) }
    { id := 10, account_id := 1 } { id := 20, account_id := 2 } 20
    (by decide) (by decide) rfl (by decide) (by decide) (by decide)
    (Or.inr (And.intro (by decide) (by decide)))
  rw [h]
  decide

end PenPals
